import Mathlib

/-
Verification of frontend/server/handler.h of the cloud-spanner-emulator
repository: the gRPC handler dispatch layer (handler envelopes, the unary
and server-streaming invocation wrappers, the streaming response sink, and
the name-keyed handler registry).

The C++ code is shallowly embedded as pure Lean functions.  Side effects
are made explicit:
  * `config::should_log_requests()` is a global boolean query; each call
    site may observe a different value, so the configuration is modelled
    as a function `cfg : Nat → Bool` giving the value returned by the
    k-th query, and each state carries a query counter.
  * `LOG(INFO)` emissions are modelled as a list of `LogRecord`s appended
    to in order.
  * `grpc::ServerWriterInterface<T>::Write` is modelled by a function
    `T → Bool` reporting transport success per message; the messages
    handed to the writer are recorded in order in a `written` list.
-/

namespace SpannerEmulator.Frontend

/-- Embedding of `absl::Status`: either OK or an error with a message. -/
inductive Status where
  | ok : Status
  | error (message : String) : Status
deriving DecidableEq, Repr

/-- Embedding of `absl::Status::ok()`. -/
def Status.isOk : Status → Bool
  | .ok => true
  | .error _ => false

/-- One `LOG(INFO)` record emitted by the handler layer.  The four
constructors correspond to the four `LOG(INFO)` statements in
handler.h: the unary request log, the unary response log, the streaming
send log, and the streaming completion log. -/
inductive LogRecord where
  | request (service method reqDebug : String)
  | response (service method respDebug : String) (status : Status)
  | streamSend (msgDebug : String)
  | streamResponse (service method : String) (status : Status)
deriving DecidableEq, Repr

/-- Is this record a streaming send log ("Sending streaming response")? -/
def LogRecord.isStreamSend : LogRecord → Bool
  | .streamSend _ => true
  | _ => false

/-- Embedding of `GRPCHandlerBase`: the constructor stores the two name
strings in `const` members; `service_name()` and `method_name()` return
them.  The constructor body performs no validation of the names. -/
structure GRPCHandlerBase where
  service_name : String
  method_name : String
deriving DecidableEq, Repr

/-- Observable state threaded through a streaming invocation: the number
of `config::should_log_requests()` queries made so far, the log records
emitted so far, and the messages handed to the transport writer so far. -/
structure StreamState (T : Type) where
  queries : Nat
  logs : List LogRecord
  written : List T
deriving DecidableEq, Repr

/-- Embedding of `ServerStream<T>`: it wraps the transport writer (whose
`Write` result is the `writerWrite` function) together with the message
type's `DebugString` rendering. -/
structure ServerStream (T : Type) where
  writerWrite : T → Bool
  debugString : T → String

/-- Embedding of `ServerStream<T>::Send`.  Mirrors the C++ body: query
`config::should_log_requests()`; if true, log the message's debug string;
then call `writer_->Write(msg)`.  `Send` returns `void` (here `Unit`)
and the boolean result of `Write` is discarded (the C++ statement
`writer_->Write(msg);` ignores the returned bool). -/
def ServerStream.Send {T : Type} (stream : ServerStream T) (cfg : Nat → Bool)
    (msg : T) (s : StreamState T) : Unit × StreamState T :=
  let b := cfg s.queries
  let s1 : StreamState T := { s with queries := s.queries + 1 }
  let s2 : StreamState T :=
    if b then { s1 with logs := s1.logs ++ [LogRecord.streamSend (stream.debugString msg)] }
    else s1
  let _ := stream.writerWrite msg
  ((), { s2 with written := s2.written ++ [msg] })

/-- Observable state threaded through a unary invocation: the query
counter, the emitted log records, and the number of times the wrapped
handler function has been invoked. -/
structure UnaryState where
  queries : Nat
  logs : List LogRecord
  calls : Nat
deriving DecidableEq, Repr

/-- Embedding of `UnaryGRPCHandler<RequestT, ResponseT>`: the base names,
the wrapped handler function `fn_` (which receives the context, the
request, and the response container, and returns its status together
with the populated response), and the `DebugString` renderings of the
two message types. -/
structure UnaryGRPCHandler (Ctx Req Resp : Type) where
  base : GRPCHandlerBase
  fn : Ctx → Req → Resp → Status × Resp
  debugReq : Req → String
  debugResp : Resp → String

/-- Embedding of `UnaryGRPCHandler::Run`.  Mirrors the C++ body: query
the logging flag and, if set, log the request tagged
"service.method"; invoke `fn_` exactly once; query the logging flag
again and, if set, log the populated response and the status; return
the status.  The request is a `const` pointer in C++ and cannot be
mutated; the embedding returns it alongside the status to make this
frame condition statable. -/
def UnaryGRPCHandler.Run {Ctx Req Resp : Type} (h : UnaryGRPCHandler Ctx Req Resp)
    (cfg : Nat → Bool) (ctx : Ctx) (req : Req) (resp : Resp) (s : UnaryState) :
    Status × Req × Resp × UnaryState :=
  let b1 := cfg s.queries
  let s1 : UnaryState := { s with queries := s.queries + 1 }
  let s2 : UnaryState :=
    if b1 then
      { s1 with logs := s1.logs ++
          [LogRecord.request h.base.service_name h.base.method_name (h.debugReq req)] }
    else s1
  let out := h.fn ctx req resp
  let s3 : UnaryState := { s2 with calls := s2.calls + 1 }
  let b2 := cfg s3.queries
  let s4 : UnaryState := { s3 with queries := s3.queries + 1 }
  let s5 : UnaryState :=
    if b2 then
      { s4 with logs := s4.logs ++
          [LogRecord.response h.base.service_name h.base.method_name
            (h.debugResp out.2) out.1] }
    else s4
  (out.1, req, out.2, s5)

/-- Embedding of `ServerStreamingGRPCHandler<RequestT, ResponseT>`.  The
wrapped handler function's only interaction with this layer is the
ordered sequence of `Send` calls it makes on the sink plus its returned
status, so `fn_` is represented by that trace: the list of messages it
sends, in order, and its status. -/
structure ServerStreamingGRPCHandler (Ctx Req Resp : Type) where
  base : GRPCHandlerBase
  fn : Ctx → Req → List Resp × Status
  debugReq : Req → String
  debugResp : Resp → String

/-- Embedding of `ServerStreamingGRPCHandler::Run`.  Mirrors the C++
body: query the logging flag and, if set, log the request; construct a
`ServerStream` wrapping the writer; invoke `fn_` with the sink (each
message the function sends goes through `ServerStream::Send`, in order);
query the logging flag again and, if set, log the completion status
(no response body); return the status. -/
def ServerStreamingGRPCHandler.Run {Ctx Req Resp : Type}
    (h : ServerStreamingGRPCHandler Ctx Req Resp) (cfg : Nat → Bool)
    (writerWrite : Resp → Bool) (ctx : Ctx) (req : Req) (s : StreamState Resp) :
    Status × StreamState Resp :=
  let b1 := cfg s.queries
  let s1 : StreamState Resp := { s with queries := s.queries + 1 }
  let s2 : StreamState Resp :=
    if b1 then
      { s1 with logs := s1.logs ++
          [LogRecord.request h.base.service_name h.base.method_name (h.debugReq req)] }
    else s1
  let stream : ServerStream Resp := ⟨writerWrite, h.debugResp⟩
  let out := h.fn ctx req
  let s3 : StreamState Resp :=
    out.1.foldl (fun acc m => (stream.Send cfg m acc).2) s2
  let b2 := cfg s3.queries
  let s4 : StreamState Resp := { s3 with queries := s3.queries + 1 }
  let s5 : StreamState Resp :=
    if b2 then
      { s4 with logs := s4.logs ++
          [LogRecord.streamResponse h.base.service_name h.base.method_name out.2] }
    else s4
  (out.2, s5)

/-- Modelled from the spec: the registry implementation (the delegated
`HandlerRegisterer` constructor and the body of `GetHandler`) lives in
frontend/server/handler.cc, which is not among the provided sources;
handler.h only declares them.  Per the spec, the registry is a
process-wide mapping from `(service name, method name)` to handler
envelope, modelled here as an association list (insertion order). -/
abbrev HandlerMap (H : Type) : Type := List ((String × String) × H)

/-- Modelled from the spec: `GetHandler` returns the registered handler
for a `(service, method)` key, or an explicit absent signal (`nullptr`
in C++, `none` here) when no handler was registered under that key.  A
pure, total read: it never throws. -/
def GetHandler {H : Type} : HandlerMap H → String → String → Option H
  | [], _, _ => none
  | (k, h) :: rest, service, method =>
      if k = (service, method) then some h else GetHandler rest service method

/-- Modelled from the spec: `Register` inserts an envelope under its
`MethodKey`; it fails deterministically (startup-fatal) if the key is
already present and does not overwrite the existing registration. -/
def RegisterHandler {H : Type} (r : HandlerMap H) (service method : String)
    (h : H) : Except String (HandlerMap H) :=
  if (GetHandler r service method).isSome then
    Except.error ("duplicate handler registered for " ++ service ++ "." ++ method)
  else
    Except.ok (r ++ [((service, method), h)])

/-- A lookup returns the absent signal exactly when no entry of the map
carries the queried key. -/
lemma GetHandler_eq_none_iff {H : Type} (r : HandlerMap H) (s m : String) :
    GetHandler r s m = none ↔ ∀ p ∈ r, p.1 ≠ (s, m) := by
  induction r with
  | nil => simp [GetHandler]
  | cons p rest ih =>
    obtain ⟨k, h⟩ := p
    by_cases hk : k = (s, m) <;> simp [GetHandler, hk, ih]

/-- Appending a fresh entry for a previously absent key makes lookup of
that key resolve to the appended handler. -/
lemma GetHandler_append_single {H : Type} (r : HandlerMap H) (s m : String)
    (h : H) (hnone : GetHandler r s m = none) :
    GetHandler (r ++ [((s, m), h)]) s m = some h := by
  induction r with
  | nil => simp [GetHandler]
  | cons p rest ih =>
    obtain ⟨k, hh⟩ := p
    by_cases hk : k = (s, m)
    · simp [GetHandler, hk] at hnone
    · simp [GetHandler, hk] at hnone ⊢
      exact ih hnone

/-- Claim C1: registering the same (service, method) key twice fails
deterministically and does not overwrite the first registration: after a
successful registration of `h1`, a duplicate registration attempt of
`h2` under the same key returns the deterministic error and lookup of
the key still resolves to `h1`. -/
theorem register_twice_fails_and_keeps_first {H : Type} (r r1 : HandlerMap H)
    (s m : String) (h1 h2 : H)
    (hreg : RegisterHandler r s m h1 = Except.ok r1) :
    RegisterHandler r1 s m h2 =
      Except.error ("duplicate handler registered for " ++ s ++ "." ++ m) ∧
    GetHandler r1 s m = some h1 := by
  unfold RegisterHandler at hreg
  by_cases hn : (GetHandler r s m).isSome
  · simp [hn] at hreg
  · simp [hn] at hreg
    have hnone : GetHandler r s m = none := by
      cases hget : GetHandler r s m with
      | none => rfl
      | some v => rw [hget] at hn; simp at hn
    subst hreg
    have hfound := GetHandler_append_single r s m h1 hnone
    refine ⟨?_, hfound⟩
    unfold RegisterHandler
    simp [hfound]

/-- Witness for claim C1 at a concrete registry. -/
theorem register_twice_fails_and_keeps_first_witness :
    RegisterHandler [(("Spanner", "GetSession"), (1 : Nat))] "Spanner" "GetSession" 2 =
      Except.error ("duplicate handler registered for " ++ "Spanner" ++ "." ++ "GetSession") ∧
    GetHandler [(("Spanner", "GetSession"), (1 : Nat))] "Spanner" "GetSession" = some 1 :=
  register_twice_fails_and_keeps_first [] [(("Spanner", "GetSession"), 1)]
    "Spanner" "GetSession" 1 2 rfl

/-- Claim C3: for a (service, method) key under which no handler was
registered, `GetHandler` returns the explicit absent signal `none`,
never a usable envelope; it is a total function, so the miss cannot
throw or panic. -/
theorem getHandler_unregistered_is_none {H : Type} (r : HandlerMap H)
    (s m : String) (hnot : ∀ p ∈ r, p.1 ≠ (s, m)) :
    GetHandler r s m = none :=
  (GetHandler_eq_none_iff r s m).mpr hnot

/-- Witness for claim C3 at a concrete registry and unregistered key. -/
theorem getHandler_unregistered_is_none_witness :
    GetHandler [(("Spanner", "GetSession"), (1 : Nat))] "Spanner" "Nonexistent" = none :=
  getHandler_unregistered_is_none _ "Spanner" "Nonexistent" (by decide)

/-- Claim C10: the handler envelope's construction performs no
validation of its names: for every pair of strings, including empty
strings, construction succeeds and the accessors return exactly the
supplied strings. -/
theorem handlerBase_accessors_return_supplied_names :
    (∀ s m : String, (GRPCHandlerBase.mk s m).service_name = s ∧
      (GRPCHandlerBase.mk s m).method_name = m) ∧
    (GRPCHandlerBase.mk "" "").service_name = "" ∧
    (GRPCHandlerBase.mk "" "").method_name = "" :=
  ⟨fun _ _ => ⟨rfl, rfl⟩, rfl, rfl⟩

/-- A stream over String messages whose transport writer reports failure
for every write. -/
def failingWriterStream : ServerStream String := ⟨fun _ => false, fun msg => msg⟩

/-- A stream over String messages whose transport writer reports success
for every write. -/
def okWriterStream : ServerStream String := ⟨fun _ => true, fun msg => msg⟩

/-- Claim C2 counterexample: at a concrete message and state, `Send`
over a writer that reports failure returns exactly the same
caller-visible result (and state) as `Send` over a writer that reports
success, and that result is the uninformative unit value: the C++ body
discards the bool returned by `writer_->Write(msg)`, so the transport
failure is never surfaced to the streaming handler. -/
theorem send_ignores_write_failure_counterexample :
    failingWriterStream.Send (fun _ => false) "msg" ⟨0, [], []⟩ =
      okWriterStream.Send (fun _ => false) "msg" ⟨0, [], []⟩ ∧
    (failingWriterStream.Send (fun _ => false) "msg" ⟨0, [], []⟩).1 = () :=
  ⟨rfl, rfl⟩

/-- Claim C2 as amended: `Send` logs the message (when enabled) and
forwards it to the transport writer, but it returns void and discards
the writer's reported outcome: its result and observable state are
independent of whether the writer reports success or failure, so a
transport failure is not surfaced to the caller. -/
theorem send_result_independent_of_writer {T : Type} (w w' : T → Bool)
    (dbg : T → String) (cfg : Nat → Bool) (msg : T) (s : StreamState T) :
    ServerStream.Send ⟨w, dbg⟩ cfg msg s = ServerStream.Send ⟨w', dbg⟩ cfg msg s ∧
    (ServerStream.Send ⟨w, dbg⟩ cfg msg s).2.written = s.written ++ [msg] ∧
    (ServerStream.Send ⟨w, dbg⟩ cfg msg s).1 = () := by
  refine ⟨rfl, ?_, rfl⟩
  unfold ServerStream.Send
  by_cases hb : cfg s.queries <;> simp [hb]

/-- A concrete unary handler used by witnesses: echoes the request into
the response and reports a failure status. -/
def demoUnary : UnaryGRPCHandler Unit String String :=
  ⟨⟨"Spanner", "GetSession"⟩, fun _ req _ => (Status.error "boom", req ++ "!"),
   fun r => r, fun r => r⟩

/-- Claim C4: with verbose logging enabled, a unary `Run` emits exactly
two log records: the request record (tagged service.method) before the
wrapped function is invoked, then the response record after it returns,
regardless of whether the wrapped function's outcome is success or
failure. -/
theorem unaryRun_logging_enabled_two_records {Ctx Req Resp : Type}
    (h : UnaryGRPCHandler Ctx Req Resp) (cfg : Nat → Bool)
    (hcfg : ∀ n, cfg n = true) (ctx : Ctx) (req : Req) (resp : Resp)
    (s : UnaryState) :
    (h.Run cfg ctx req resp s).2.2.2.logs =
      s.logs ++
        [LogRecord.request h.base.service_name h.base.method_name (h.debugReq req),
         LogRecord.response h.base.service_name h.base.method_name
           (h.debugResp (h.fn ctx req resp).2) (h.fn ctx req resp).1] := by
  simp [UnaryGRPCHandler.Run, hcfg]

/-- Witness for claim C4 at a concrete handler whose outcome is a
failure. -/
theorem unaryRun_logging_enabled_two_records_witness :
    (demoUnary.Run (fun _ => true) () "req" "" ⟨0, [], 0⟩).2.2.2.logs =
      [LogRecord.request "Spanner" "GetSession" "req",
       LogRecord.response "Spanner" "GetSession" "req!" (Status.error "boom")] := by
  simpa using unaryRun_logging_enabled_two_records demoUnary (fun _ => true)
    (fun _ => rfl) () "req" "" ⟨0, [], 0⟩

/-- Claim C5: with verbose logging disabled, a unary `Run` emits zero
log records and returns exactly the wrapped function's status,
unchanged. -/
theorem unaryRun_logging_disabled_zero_records {Ctx Req Resp : Type}
    (h : UnaryGRPCHandler Ctx Req Resp) (cfg : Nat → Bool)
    (hcfg : ∀ n, cfg n = false) (ctx : Ctx) (req : Req) (resp : Resp)
    (s : UnaryState) :
    (h.Run cfg ctx req resp s).2.2.2.logs = s.logs ∧
    (h.Run cfg ctx req resp s).1 = (h.fn ctx req resp).1 ∧
    (h.Run cfg ctx req resp s).2.2.1 = (h.fn ctx req resp).2 := by
  simp [UnaryGRPCHandler.Run, hcfg]

/-- Witness for claim C5 at a concrete handler whose outcome is a
failure. -/
theorem unaryRun_logging_disabled_zero_records_witness :
    (demoUnary.Run (fun _ => false) () "req" "" ⟨0, [], 0⟩).2.2.2.logs = [] ∧
    (demoUnary.Run (fun _ => false) () "req" "" ⟨0, [], 0⟩).1 = Status.error "boom" ∧
    (demoUnary.Run (fun _ => false) () "req" "" ⟨0, [], 0⟩).2.2.1 = "req!" := by
  simpa using unaryRun_logging_disabled_zero_records demoUnary (fun _ => false)
    (fun _ => rfl) () "req" "" ⟨0, [], 0⟩

/-- Claim C8: a unary `Run` leaves the request value unchanged, invokes
the wrapped function exactly once, and emits at most two log records,
under every logging configuration. -/
theorem unaryRun_frame {Ctx Req Resp : Type}
    (h : UnaryGRPCHandler Ctx Req Resp) (cfg : Nat → Bool) (ctx : Ctx)
    (req : Req) (resp : Resp) (s : UnaryState) :
    (h.Run cfg ctx req resp s).2.1 = req ∧
    (h.Run cfg ctx req resp s).2.2.2.calls = s.calls + 1 ∧
    (h.Run cfg ctx req resp s).2.2.2.logs.length ≤ s.logs.length + 2 := by
  refine ⟨rfl, ?_, ?_⟩ <;>
  · simp only [UnaryGRPCHandler.Run]
    by_cases h1 : cfg s.queries <;> by_cases h2 : cfg (s.queries + 1) <;>
      simp [h1, h2]

/-- Claim C9 (implicit): the unary `Run` queries the verbose-logging
predicate twice, once before the request log and once after the wrapped
function returns; when the predicate's value differs between the two
queries exactly one of the two log records is emitted: the request
record if the first query was true, the response record if the second
query was true. -/
theorem unaryRun_flag_flip_one_record {Ctx Req Resp : Type}
    (h : UnaryGRPCHandler Ctx Req Resp) (cfg : Nat → Bool) (ctx : Ctx)
    (req : Req) (resp : Resp) (s : UnaryState)
    (hneq : cfg s.queries ≠ cfg (s.queries + 1)) :
    (h.Run cfg ctx req resp s).2.2.2.logs.length = s.logs.length + 1 ∧
    (cfg s.queries = true →
      (h.Run cfg ctx req resp s).2.2.2.logs =
        s.logs ++ [LogRecord.request h.base.service_name h.base.method_name
          (h.debugReq req)]) ∧
    (cfg s.queries = false →
      (h.Run cfg ctx req resp s).2.2.2.logs =
        s.logs ++ [LogRecord.response h.base.service_name h.base.method_name
          (h.debugResp (h.fn ctx req resp).2) (h.fn ctx req resp).1]) := by
  by_cases h1 : cfg s.queries <;> by_cases h2 : cfg (s.queries + 1) <;>
    simp [UnaryGRPCHandler.Run, h1, h2] at hneq ⊢

/-- Witness for claim C9: a configuration whose value flips between the
two queries yields exactly one new log record. -/
theorem unaryRun_flag_flip_one_record_witness :
    ((fun n => n == 0) (0 : Nat) ≠ (fun n => n == 0) (0 + 1)) ∧
    (demoUnary.Run (fun n => n == 0) () "req" "" ⟨0, [], 0⟩).2.2.2.logs.length
      = 0 + 1 :=
  ⟨by decide,
   (unaryRun_flag_flip_one_record demoUnary (fun n => n == 0) () "req" ""
      ⟨0, [], 0⟩ (by decide)).1⟩

/-- State produced by one `Send` with logging enabled at the moment of
the query. -/
lemma send_state_enabled {T : Type} (stream : ServerStream T)
    (cfg : Nat → Bool) (m : T) (s : StreamState T)
    (hb : cfg s.queries = true) :
    (stream.Send cfg m s).2 =
      ⟨s.queries + 1,
       s.logs ++ [LogRecord.streamSend (stream.debugString m)],
       s.written ++ [m]⟩ := by
  simp [ServerStream.Send, hb]

/-- Effect of a streaming handler's whole sequence of `Send` calls with
logging enabled: every message is appended to the written list in Send
order and contributes exactly one send-log record, in that same
order. -/
lemma sendAll_enabled {T : Type} (stream : ServerStream T)
    (cfg : Nat → Bool) (hcfg : ∀ n, cfg n = true) (msgs : List T)
    (s : StreamState T) :
    (msgs.foldl (fun acc m => (stream.Send cfg m acc).2) s).logs =
      s.logs ++ msgs.map (fun m => LogRecord.streamSend (stream.debugString m)) ∧
    (msgs.foldl (fun acc m => (stream.Send cfg m acc).2) s).written =
      s.written ++ msgs ∧
    (msgs.foldl (fun acc m => (stream.Send cfg m acc).2) s).queries =
      s.queries + msgs.length := by
  induction msgs generalizing s with
  | nil => simp
  | cons m rest ih =>
    simp only [List.foldl_cons]
    rw [send_state_enabled stream cfg m s (hcfg s.queries)]
    have h := ih ⟨s.queries + 1,
      s.logs ++ [LogRecord.streamSend (stream.debugString m)], s.written ++ [m]⟩
    simp only at h
    refine ⟨?_, ?_, ?_⟩
    · rw [h.1]; simp
    · rw [h.2.1]; simp
    · rw [h.2.2, List.length_cons]; omega

/-- Claim C6: with verbose logging enabled, a streaming `Run` forwards
the wrapped function's messages to the transport writer in the exact
order `Send` is called, none dropped or reordered, and emits exactly
one request-log record, one send-log record per message in that same
order, and one completion-log record. -/
theorem streamingRun_logging_enabled {Ctx Req Resp : Type}
    (h : ServerStreamingGRPCHandler Ctx Req Resp) (cfg : Nat → Bool)
    (hcfg : ∀ n, cfg n = true) (writerWrite : Resp → Bool) (ctx : Ctx)
    (req : Req) (s : StreamState Resp) :
    (h.Run cfg writerWrite ctx req s).2.written = s.written ++ (h.fn ctx req).1 ∧
    (h.Run cfg writerWrite ctx req s).2.logs =
      s.logs ++
        [LogRecord.request h.base.service_name h.base.method_name (h.debugReq req)] ++
        (h.fn ctx req).1.map (fun m => LogRecord.streamSend (h.debugResp m)) ++
        [LogRecord.streamResponse h.base.service_name h.base.method_name
          (h.fn ctx req).2] := by
  have hall := sendAll_enabled ⟨writerWrite, h.debugResp⟩ cfg hcfg (h.fn ctx req).1
    ⟨s.queries + 1,
     s.logs ++ [LogRecord.request h.base.service_name h.base.method_name
       (h.debugReq req)],
     s.written⟩
  simp only at hall
  simp only [ServerStreamingGRPCHandler.Run, hcfg, if_true]
  constructor
  · simp [hall.2.1]
  · simp [hall.1, hall.2.1, hall.2.2, List.append_assoc]

/-- A concrete streaming handler used by the C6 witness: emits two
messages derived from the request and succeeds. -/
def demoStream : ServerStreamingGRPCHandler Unit String String :=
  ⟨⟨"Spanner", "ExecuteStreamingSql"⟩,
   fun _ req => ([req ++ "1", req ++ "2"], Status.ok), fun r => r, fun r => r⟩

/-- Witness for claim C6 at a concrete two-message streaming handler. -/
theorem streamingRun_logging_enabled_witness :
    (demoStream.Run (fun _ => true) (fun _ => true) () "q" ⟨0, [], []⟩).2.written
      = ["q1", "q2"] ∧
    (demoStream.Run (fun _ => true) (fun _ => true) () "q" ⟨0, [], []⟩).2.logs =
      [LogRecord.request "Spanner" "ExecuteStreamingSql" "q",
       LogRecord.streamSend "q1", LogRecord.streamSend "q2",
       LogRecord.streamResponse "Spanner" "ExecuteStreamingSql" Status.ok] := by
  simpa using streamingRun_logging_enabled demoStream (fun _ => true)
    (fun _ => rfl) (fun _ => true) () "q" ⟨0, [], []⟩

/-- Claim C7: when the wrapped streaming function emits zero messages
and returns a failure, `Run` produces zero send-log records, forwards
nothing to the writer, and returns that same failure unmodified, under
every logging configuration. -/
theorem streamingRun_empty_failure {Ctx Req Resp : Type}
    (h : ServerStreamingGRPCHandler Ctx Req Resp) (cfg : Nat → Bool)
    (writerWrite : Resp → Bool) (ctx : Ctx) (req : Req)
    (s : StreamState Resp) (e : String)
    (hfn : h.fn ctx req = ([], Status.error e)) :
    (h.Run cfg writerWrite ctx req s).2.logs.filter LogRecord.isStreamSend =
      s.logs.filter LogRecord.isStreamSend ∧
    (h.Run cfg writerWrite ctx req s).2.written = s.written ∧
    (h.Run cfg writerWrite ctx req s).1 = Status.error e := by
  simp only [ServerStreamingGRPCHandler.Run, hfn]
  by_cases h1 : cfg s.queries <;> by_cases h2 : cfg (s.queries + 1) <;>
    simp [h1, h2, List.filter_append, LogRecord.isStreamSend]

/-- A concrete streaming handler used by the C7 witness: emits nothing
and fails. -/
def demoStreamFail : ServerStreamingGRPCHandler Unit String String :=
  ⟨⟨"Spanner", "ExecuteStreamingSql"⟩,
   fun _ _ => ([], Status.error "boom"), fun r => r, fun r => r⟩

/-- Witness for claim C7 at a concrete empty, failing streaming
handler with logging enabled. -/
theorem streamingRun_empty_failure_witness :
    (demoStreamFail.Run (fun _ => true) (fun _ => true) () "q" ⟨0, [], []⟩).2.logs.filter
        LogRecord.isStreamSend = List.filter LogRecord.isStreamSend [] ∧
    (demoStreamFail.Run (fun _ => true) (fun _ => true) () "q" ⟨0, [], []⟩).2.written = [] ∧
    (demoStreamFail.Run (fun _ => true) (fun _ => true) () "q" ⟨0, [], []⟩).1 =
      Status.error "boom" := by
  simpa using streamingRun_empty_failure demoStreamFail (fun _ => true)
    (fun _ => true) () "q" ⟨0, [], []⟩ "boom" rfl

end SpannerEmulator.Frontend
